import Mathlib

/-!
Shallow embedding of the viewport / interaction core of the OsmGpsMap widget
(`src/osm-gps-map-widget.c`).

The geographic scalar type (C `float` radians/degrees) is kept abstract as a
type parameter `α`.  The coordinate converter functions (`lon2pixel`,
`lat2pixel`, `pixel2lon`, `pixel2lat`, `deg2rad`) live in `converter.c`, which
is not part of the sources given here; the widget only ever calls them through
their interface, so the embedding is parameterised over a `Converter α`
record of those functions.

Machine integers: the `gint` values manipulated by the widget (zoom bounds,
pixel offsets, drag counters, z-orders) are modelled as mathematical `Int`,
which is faithful for all executions free of C signed-integer overflow
(signed overflow is undefined behaviour in C, so no defined execution is
lost).  Integer division (`allocation.width/2` and friends) only ever happens
on non-negative quantities in the claims below, where C truncating division
and Lean's `Int` division agree.
-/

/-- The coordinate conversion interface provided by `converter.c` (external to
the widget source file): forward/backward projection between geographic
coordinates (radians, type `α`) and world-pixel coordinates at a zoom level,
plus degree-to-radian conversion. -/
structure Converter (α : Type) where
  lon2pixel : Int → α → Int
  lat2pixel : Int → α → Int
  pixel2lon : Int → Int → α
  pixel2lat : Int → Int → α
  deg2rad : α → α

/-- `OsmGpsMapPoint`: a geographic point, latitude/longitude in radians. -/
structure OsmGpsMapPoint (α : Type) where
  rlat : α
  rlon : α
deriving DecidableEq, Repr

/-- An `OsmGpsMapImage` point marker as stored in `priv->images`: geographic
anchor and z-order.  `tag` models the identity (allocation order) of the
GObject created by `g_object_new`, used to express insertion order. -/
structure OsmGpsMapImage (α : Type) where
  rlat : α
  rlon : α
  zorder : Int
  tag : Nat
deriving DecidableEq, Repr

/-- An `OsmGpsMapLayer` as seen by the widget: the only capability the
redraw path queries is `osm_gps_map_layer_busy`. -/
structure OsmGpsMapLayer where
  busy : Bool
deriving DecidableEq, Repr

/-- Signals / property notifications emitted by the widget
(`g_signal_emit_by_name(map, "changed")`, `g_object_notify(map, "zoom")`,
and the `notify` implied by `g_object_set(map, "auto-center", ...)`). -/
inductive MapEvent where
  | changed
  | notifyZoom
  | notifyAutoCenter
deriving DecidableEq, Repr

/-- The fields of `OsmGpsMapPrivate` (plus the widget allocation) that the
viewport / interaction core reads and writes.  `pixmap` records whether the
backing surface exists; `idle_map_redraw` and `drag_expose_source` are the
GLib source ids (0 = none); `idle_sources` models the host event loop: the
number of map-redraw idle callbacks currently enqueued by `g_idle_add`
(incremented exactly when `g_idle_add((GSourceFunc)osm_gps_map_map_redraw, …)`
is called); `image_seq` models the allocation order of marker objects (the
`tag` given to the next created `OsmGpsMapImage`). -/
structure MapState (α : Type) where
  map_zoom : Int
  max_zoom : Int
  min_zoom : Int
  map_x : Int
  map_y : Int
  map_auto_center_threshold : α
  center_rlat : α
  center_rlon : α
  redraw_cycle : Nat
  idle_map_redraw : Nat
  idle_sources : Nat
  trip_history : List (OsmGpsMapPoint α)
  gps : OsmGpsMapPoint α
  gps_heading : α
  images : List (OsmGpsMapImage α)
  image_seq : Nat
  pixmap : Bool
  layers : List OsmGpsMapLayer
  drag_counter : Int
  drag_mouse_dx : Int
  drag_mouse_dy : Int
  drag_start_mouse_x : Int
  drag_start_mouse_y : Int
  drag_start_map_x : Int
  drag_start_map_y : Int
  drag_limit : Int
  drag_expose_source : Nat
  drag_point : OsmGpsMapPoint α
  map_auto_center_enabled : Bool
  trip_history_record_enabled : Bool
  trip_history_show_enabled : Bool
  gps_point_enabled : Bool
  is_dragging : Bool
  is_button_down : Bool
  is_dragging_point : Bool
  allocation_width : Int
  allocation_height : Int
deriving DecidableEq, Repr

/-- `EXTRA_BORDER` constant from the widget source. -/
def EXTRA_BORDER : Int := 0

/-- GLib's `CLAMP(x, low, high)` macro:
`(((x) > (high)) ? (high) : (((x) < (low)) ? (low) : (x)))`. -/
def CLAMP (x low high : Int) : Int :=
  if x > high then high else if x < low then low else x

/-- GLib's `g_slist_insert_sorted`: walk the list while `cmp new cur > 0`
and insert the new element before the first element with `cmp new cur ≤ 0`
(appending at the end if the comparison stays positive throughout). -/
def g_slist_insert_sorted {β : Type} (cmp : β → β → Int) (x : β) :
    List β → List β
  | [] => [x]
  | a :: rest =>
      if cmp x a > 0 then a :: g_slist_insert_sorted cmp x rest
      else x :: a :: rest

/-- `osm_gps_map_image_z_compare`: `z1 - z2 + 1` on the two images'
z-orders. -/
def osm_gps_map_image_z_compare {α : Type} (item1 item2 : OsmGpsMapImage α) :
    Int :=
  item1.zorder - item2.zorder + 1

/-- `center_coord_update`: recompute `center_rlat`/`center_rlon` from
`map_x`/`map_y` and the allocation, then emit "changed". -/
def center_coord_update {α : Type} (conv : Converter α) (s : MapState α) :
    MapState α × List MapEvent :=
  let pixel_x := s.map_x + s.allocation_width / 2
  let pixel_y := s.map_y + s.allocation_height / 2
  ({ s with
      center_rlon := conv.pixel2lon s.map_zoom pixel_x
      center_rlat := conv.pixel2lat s.map_zoom pixel_y },
   [MapEvent.changed])

/-- `osm_gps_map_map_redraw_idle`: if no idle redraw is pending
(`idle_map_redraw == 0`), register one via `g_idle_add` (which returns a
positive source id and enqueues one callback on the event loop). -/
def osm_gps_map_map_redraw_idle {α : Type} (s : MapState α) : MapState α :=
  if s.idle_map_redraw = 0 then
    { s with idle_map_redraw := s.idle_sources + 1
             idle_sources := s.idle_sources + 1 }
  else s

/-- Output of `osm_gps_map_map_redraw`: the post state, whether the scene
was actually recomposed, and (when it was) the rectangle handed to
`draw_white_rectangle` as the background clear. -/
structure RedrawResult (α : Type) where
  state : MapState α
  composed : Bool
  cleared : Option (Int × Int × Int × Int)
deriving DecidableEq, Repr

/-- `osm_gps_map_map_redraw`: reset the idle source id, then bail out if the
surface is absent, any layer is busy, or a drag is in progress; otherwise
zero the drag displacement, bump the redraw cycle, and clear the background
with `draw_white_rectangle(cr, 0, 0, w + EXTRA_BORDER*2, h + EXTRA_BORDER*2)`
where — as in the source — both `w` and `h` are read with
`gtk_widget_get_allocated_width`. -/
def osm_gps_map_map_redraw {α : Type} (s : MapState α) : RedrawResult α :=
  let s := { s with idle_map_redraw := 0 }
  if !s.pixmap then
    ⟨s, false, none⟩
  else if s.layers.any (fun layer => layer.busy) then
    ⟨s, false, none⟩
  else if s.is_dragging then
    ⟨s, false, none⟩
  else
    let s := { s with
        drag_mouse_dx := 0
        drag_mouse_dy := 0
        redraw_cycle := s.redraw_cycle + 1 }
    let w := s.allocation_width
    let h := s.allocation_width
    ⟨s, true, some (0, 0, w + EXTRA_BORDER * 2, h + EXTRA_BORDER * 2)⟩

/-- Result of `osm_gps_map_set_zoom`: post state, emitted signals, and the
returned `priv->map_zoom`. -/
structure SetZoomResult (α : Type) where
  state : MapState α
  events : List MapEvent
  result : Int
deriving DecidableEq, Repr

/-- `osm_gps_map_set_zoom`: no-op when the requested zoom equals the current
one; otherwise clamp to `[min_zoom, max_zoom]`, recompute `map_x`/`map_y`
from the current center, request a deferred redraw, and emit "changed" and
`notify::zoom`.  Returns `priv->map_zoom`. -/
def osm_gps_map_set_zoom {α : Type} (conv : Converter α) (s : MapState α)
    (zoom : Int) : SetZoomResult α :=
  if zoom ≠ s.map_zoom then
    let width_center := s.allocation_width / 2
    let height_center := s.allocation_height / 2
    let map_zoom' := CLAMP zoom s.min_zoom s.max_zoom
    let s := { s with
        map_zoom := map_zoom'
        map_x := conv.lon2pixel map_zoom' s.center_rlon - width_center
        map_y := conv.lat2pixel map_zoom' s.center_rlat - height_center }
    let s := osm_gps_map_map_redraw_idle s
    ⟨s, [MapEvent.changed, MapEvent.notifyZoom], s.map_zoom⟩
  else
    ⟨s, [], s.map_zoom⟩

/-- `maybe_autocenter_map`: when auto-centering is enabled and the GPS fix's
screen position `(x, y)` leaves the centered band
`[width/2 - width/8, width/2 + width/8] × [height/2 - height/8, height/2 + height/8]`
(strict comparisons in the source), recenter `map_x`/`map_y` on the fix and
run `center_coord_update`. -/
def maybe_autocenter_map {α : Type} (conv : Converter α) (s : MapState α) :
    MapState α × List MapEvent :=
  if s.map_auto_center_enabled then
    let pixel_x := conv.lon2pixel s.map_zoom s.gps.rlon
    let pixel_y := conv.lat2pixel s.map_zoom s.gps.rlat
    let x := pixel_x - s.map_x
    let y := pixel_y - s.map_y
    let width := s.allocation_width
    let height := s.allocation_height
    if x < (width / 2 - width / 8) || x > (width / 2 + width / 8) ||
       y < (height / 2 - height / 8) || y > (height / 2 + height / 8) then
      let s := { s with
          map_x := pixel_x - s.allocation_width / 2
          map_y := pixel_y - s.allocation_height / 2 }
      center_coord_update conv s
    else (s, [])
  else (s, [])

/-- `osm_gps_map_gps_add`: update the current GPS point and heading (degrees
converted to radians), request a deferred redraw, then run
`maybe_autocenter_map`. -/
def osm_gps_map_gps_add {α : Type} (conv : Converter α) (s : MapState α)
    (latitude longitude heading : α) : MapState α × List MapEvent :=
  let s := { s with
      gps := ⟨conv.deg2rad latitude, conv.deg2rad longitude⟩
      gps_heading := conv.deg2rad heading }
  let s := osm_gps_map_map_redraw_idle s
  maybe_autocenter_map conv s

/-- `osm_gps_map_gps_clear`: the body only requests a deferred redraw. -/
def osm_gps_map_gps_clear {α : Type} (s : MapState α) : MapState α :=
  osm_gps_map_map_redraw_idle s

/-- `osm_gps_map_convert_geographic_to_screen` (both out-pointers non-null):
world pixel position of the point, offset by `map_x0 = map_x - EXTRA_BORDER`
and shifted by the in-flight drag displacement. -/
def osm_gps_map_convert_geographic_to_screen {α : Type} (conv : Converter α)
    (s : MapState α) (pt : OsmGpsMapPoint α) : Int × Int :=
  let map_x0 := s.map_x - EXTRA_BORDER
  let map_y0 := s.map_y - EXTRA_BORDER
  (conv.lon2pixel s.map_zoom pt.rlon - map_x0 + s.drag_mouse_dx,
   conv.lat2pixel s.map_zoom pt.rlat - map_y0 + s.drag_mouse_dy)

/-- `osm_gps_map_convert_screen_to_geographic`. -/
def osm_gps_map_convert_screen_to_geographic {α : Type} (conv : Converter α)
    (s : MapState α) (pixel_x pixel_y : Int) : OsmGpsMapPoint α :=
  let map_x0 := s.map_x - EXTRA_BORDER
  let map_y0 := s.map_y - EXTRA_BORDER
  ⟨conv.pixel2lat s.map_zoom (map_y0 + pixel_y),
   conv.pixel2lon s.map_zoom (map_x0 + pixel_x)⟩

/-- The `g_object_set(G_OBJECT(widget), "auto-center", FALSE, NULL)` call in
the motion handler: routes through `osm_gps_map_set_property`'s
`PROP_AUTO_CENTER` case and fires `notify::auto-center`. -/
def g_object_set_auto_center {α : Type} (s : MapState α) (v : Bool) :
    MapState α × List MapEvent :=
  ({ s with map_auto_center_enabled := v }, [MapEvent.notifyAutoCenter])

/-- A pointer-motion event as the handler sees it: position (after the
`is_hint` re-query) and whether `GDK_BUTTON1_MASK` is set in the modifier
state. -/
structure MotionEvent where
  x : Int
  y : Int
  button1 : Bool
deriving DecidableEq, Repr

/-- `osm_gps_map_motion_notify`: early-out unless a button is down; the
point-dragging branch updates `drag_point` and requests a redraw; otherwise
early-out unless button 1 is held, the press was consumed
(`drag_counter < 0`), or the dead-zone guard
(`drag_counter == 0` and squared displacement `< drag_limit²`) holds.
Past the guard: bump `drag_counter`, set `is_dragging`, disable auto-center
if it was enabled, record the displacement, and schedule the fast-path
expose idle if none is pending. -/
def osm_gps_map_motion_notify {α : Type} (conv : Converter α)
    (s : MapState α) (event : MotionEvent) : MapState α × List MapEvent :=
  if !s.is_button_down then (s, [])
  else if s.is_dragging_point then
    let s := { s with
        drag_point := osm_gps_map_convert_screen_to_geographic conv s
          event.x event.y }
    (osm_gps_map_map_redraw_idle s, [])
  else
    let x := event.x
    let y := event.y
    if !event.button1 then (s, [])
    else if s.drag_counter < 0 then (s, [])
    else if s.drag_counter = 0 ∧
        (x - s.drag_start_mouse_x) * (x - s.drag_start_mouse_x) +
        (y - s.drag_start_mouse_y) * (y - s.drag_start_mouse_y) <
        s.drag_limit * s.drag_limit then (s, [])
    else
      let s := { s with drag_counter := s.drag_counter + 1 }
      let s := { s with is_dragging := true }
      let (s, evs) :=
        if s.map_auto_center_enabled then g_object_set_auto_center s false
        else (s, [])
      let s := { s with
          drag_mouse_dx := x - s.drag_start_mouse_x
          drag_mouse_dy := y - s.drag_start_mouse_y }
      let s :=
        if s.drag_expose_source = 0 then
          { s with drag_expose_source := 1 }
        else s
      (s, evs)

/-- `osm_gps_map_image_add_with_alignment_z` (alignment fields elided — the
widget never reads them back): build the point from degrees, create the image
object (identity `image_seq`), insert it into `priv->images` with
`g_slist_insert_sorted` under `osm_gps_map_image_z_compare`, and request a
deferred redraw.  Returns the created image. -/
def osm_gps_map_image_add_with_alignment_z {α : Type} (conv : Converter α)
    (s : MapState α) (latitude longitude : α) (zorder : Int) :
    MapState α × OsmGpsMapImage α :=
  let im : OsmGpsMapImage α :=
    ⟨conv.deg2rad latitude, conv.deg2rad longitude, zorder, s.image_seq⟩
  let s := { s with
      images := g_slist_insert_sorted osm_gps_map_image_z_compare im s.images
      image_seq := s.image_seq + 1 }
  let s := osm_gps_map_map_redraw_idle s
  (s, im)

/-! ## Concrete fixtures used for witnesses and counterexamples -/

/-- A concrete coordinate converter over `α := Int`, used to evaluate the
embedding at closed inputs (the widget treats the converter as an opaque
collaborator, so any instantiation exercises the widget logic). -/
def intConverter : Converter Int where
  lon2pixel := fun _ lon => lon
  lat2pixel := fun _ lat => lat
  pixel2lon := fun _ px => px
  pixel2lat := fun _ py => py
  deg2rad := fun d => d

/-- A concrete widget state: zoom 3 in bounds [1, 18], 800×600 allocation,
surface allocated, no pending idle sources, auto-center and trip recording
enabled, origin at (0, 0), drag machine idle with `drag_limit = 10`. -/
def baseState : MapState Int where
  map_zoom := 3
  max_zoom := 18
  min_zoom := 1
  map_x := 0
  map_y := 0
  map_auto_center_threshold := 0
  center_rlat := 0
  center_rlon := 0
  redraw_cycle := 0
  idle_map_redraw := 0
  idle_sources := 0
  trip_history := []
  gps := ⟨0, 0⟩
  gps_heading := 0
  images := []
  image_seq := 0
  pixmap := true
  layers := []
  drag_counter := 0
  drag_mouse_dx := 0
  drag_mouse_dy := 0
  drag_start_mouse_x := 0
  drag_start_mouse_y := 0
  drag_start_map_x := 0
  drag_start_map_y := 0
  drag_limit := 10
  drag_expose_source := 0
  drag_point := ⟨0, 0⟩
  map_auto_center_enabled := true
  trip_history_record_enabled := true
  trip_history_show_enabled := true
  gps_point_enabled := true
  is_dragging := false
  is_button_down := false
  is_dragging_point := false
  allocation_width := 800
  allocation_height := 600

/-! ## Helper lemmas -/

theorem redraw_idle_eq_of_pending {α : Type} (s : MapState α)
    (h : s.idle_map_redraw ≠ 0) : osm_gps_map_map_redraw_idle s = s := by
  unfold osm_gps_map_map_redraw_idle
  simp [h]

theorem redraw_idle_map_zoom {α : Type} (s : MapState α) :
    (osm_gps_map_map_redraw_idle s).map_zoom = s.map_zoom := by
  unfold osm_gps_map_map_redraw_idle
  split <;> rfl

theorem redraw_idle_images {α : Type} (s : MapState α) :
    (osm_gps_map_map_redraw_idle s).images = s.images := by
  unfold osm_gps_map_map_redraw_idle
  split <;> rfl

theorem redraw_idle_image_seq {α : Type} (s : MapState α) :
    (osm_gps_map_map_redraw_idle s).image_seq = s.image_seq := by
  unfold osm_gps_map_map_redraw_idle
  split <;> rfl

theorem redraw_idle_trip_history {α : Type} (s : MapState α) :
    (osm_gps_map_map_redraw_idle s).trip_history = s.trip_history := by
  unfold osm_gps_map_map_redraw_idle
  split <;> rfl

theorem redraw_idle_min_zoom {α : Type} (s : MapState α) :
    (osm_gps_map_map_redraw_idle s).min_zoom = s.min_zoom := by
  unfold osm_gps_map_map_redraw_idle
  split <;> rfl

theorem redraw_idle_max_zoom {α : Type} (s : MapState α) :
    (osm_gps_map_map_redraw_idle s).max_zoom = s.max_zoom := by
  unfold osm_gps_map_map_redraw_idle
  split <;> rfl

theorem CLAMP_mem {x low high : Int} (h : low ≤ high) :
    low ≤ CLAMP x low high ∧ CLAMP x low high ≤ high := by
  unfold CLAMP
  split_ifs with h1 h2 <;> omega

/-! ## Claims -/

/-- Claim C1: for a state satisfying the zoom invariant
`min_zoom ≤ map_zoom ≤ max_zoom`, `osm_gps_map_set_zoom` always returns a
value in `[min_zoom, max_zoom]`; when the requested zoom differs from the
current one the returned value is the request clamped to those bounds; and
when the requested zoom equals the current one the call is a no-op: the
state (including the pending-idle bookkeeping) is unchanged and no "changed"
or `notify::zoom` signal is emitted. -/
theorem set_zoom_clamps_and_equal_is_noop {α : Type} (conv : Converter α)
    (s : MapState α) (zoom : Int)
    (h1 : s.min_zoom ≤ s.map_zoom) (h2 : s.map_zoom ≤ s.max_zoom) :
    s.min_zoom ≤ (osm_gps_map_set_zoom conv s zoom).result ∧
    (osm_gps_map_set_zoom conv s zoom).result ≤ s.max_zoom ∧
    (zoom ≠ s.map_zoom →
      (osm_gps_map_set_zoom conv s zoom).result =
        CLAMP zoom s.min_zoom s.max_zoom) ∧
    (zoom = s.map_zoom →
      (osm_gps_map_set_zoom conv s zoom).state = s ∧
      (osm_gps_map_set_zoom conv s zoom).events = []) := by
  unfold osm_gps_map_set_zoom
  split_ifs with hne
  · have hmem := CLAMP_mem (x := zoom) (h1.trans h2)
    dsimp only
    rw [redraw_idle_map_zoom]
    dsimp only
    exact ⟨hmem.1, hmem.2, fun _ => rfl, fun h => absurd h hne⟩
  · exact ⟨h1, h2, fun h => absurd h hne, fun _ => ⟨rfl, rfl⟩⟩

/-- Claim C1 witness: instantiated at the concrete base state, requesting
zoom 25 (clamped to 18) and zoom 3 (equal to current: no-op, no signals). -/
theorem set_zoom_clamps_and_equal_is_noop_witness :
    (1 : Int) ≤ baseState.map_zoom ∧ baseState.map_zoom ≤ 18 ∧
    (osm_gps_map_set_zoom intConverter baseState 25).result ≤ 18 ∧
    (osm_gps_map_set_zoom intConverter baseState 3).state = baseState ∧
    (osm_gps_map_set_zoom intConverter baseState 3).events = [] := by
  have h25 := set_zoom_clamps_and_equal_is_noop intConverter baseState 25
    (by decide) (by decide)
  have h3 := set_zoom_clamps_and_equal_is_noop intConverter baseState 3
    (by decide) (by decide)
  exact ⟨by decide, by decide, h25.2.1, (h3.2.2.2 rfl).1, (h3.2.2.2 rfl).2⟩

/-- Claim C4 helper: a second deferred-redraw request while one is pending
is a no-op. -/
theorem redraw_idle_fixed {α : Type} (s : MapState α)
    (h : s.idle_map_redraw = 0) (n : ℕ) (hn : 1 ≤ n) :
    osm_gps_map_map_redraw_idle^[n] s = osm_gps_map_map_redraw_idle s := by
  obtain ⟨m, rfl⟩ : ∃ m, n = m + 1 := ⟨n - 1, by omega⟩
  rw [Function.iterate_succ_apply]
  induction m with
  | zero => rfl
  | succ k ih =>
      rw [Function.iterate_succ_apply']
      rw [ih (by omega)]
      apply redraw_idle_eq_of_pending
      unfold osm_gps_map_map_redraw_idle
      simp [h]

/-- Claim C4: starting from a state with no deferred redraw pending
(`idle_map_redraw = 0`), any number `n ≥ 1` of consecutive calls to
`osm_gps_map_map_redraw_idle` before the idle callback fires enqueues
exactly one redraw callback on the event loop (`idle_sources` grows by
exactly one); in particular five synchronous calls do. -/
theorem redraw_idle_coalesces {α : Type} (s : MapState α)
    (h : s.idle_map_redraw = 0) (n : ℕ) (hn : 1 ≤ n) :
    (osm_gps_map_map_redraw_idle^[n] s).idle_sources = s.idle_sources + 1 ∧
    (osm_gps_map_map_redraw_idle^[5] s).idle_sources = s.idle_sources + 1 := by
  constructor
  · rw [redraw_idle_fixed s h n hn]
    unfold osm_gps_map_map_redraw_idle
    simp [h]
  · rw [redraw_idle_fixed s h 5 (by omega)]
    unfold osm_gps_map_map_redraw_idle
    simp [h]

/-- Claim C4 witness: five consecutive deferred-redraw requests on the
concrete base state (no redraw pending) enqueue exactly one callback. -/
theorem redraw_idle_coalesces_witness :
    baseState.idle_map_redraw = 0 ∧
    (osm_gps_map_map_redraw_idle^[5] baseState).idle_sources =
      baseState.idle_sources + 1 :=
  ⟨by decide, (redraw_idle_coalesces baseState (by decide) 5 (by decide)).2⟩

/-- Claim C5: `osm_gps_map_map_redraw` skips recomposition — leaving the
surface untouched (nothing cleared, `pixmap` unchanged) and the markers,
layers and drag displacement unchanged — whenever the paint surface is
absent, or some layer reports busy, or a drag is in progress; in every other
state it recomposes, and zeroes `drag_mouse_dx`/`drag_mouse_dy`. -/
theorem map_redraw_skips_or_zeroes_drag {α : Type} (s : MapState α) :
    (s.pixmap = false ∨ (∃ l ∈ s.layers, l.busy = true) ∨
        s.is_dragging = true →
      (osm_gps_map_map_redraw s).composed = false ∧
      (osm_gps_map_map_redraw s).cleared = none ∧
      (osm_gps_map_map_redraw s).state.pixmap = s.pixmap ∧
      (osm_gps_map_map_redraw s).state.images = s.images ∧
      (osm_gps_map_map_redraw s).state.layers = s.layers ∧
      (osm_gps_map_map_redraw s).state.drag_mouse_dx = s.drag_mouse_dx ∧
      (osm_gps_map_map_redraw s).state.drag_mouse_dy = s.drag_mouse_dy) ∧
    (¬(s.pixmap = false ∨ (∃ l ∈ s.layers, l.busy = true) ∨
        s.is_dragging = true) →
      (osm_gps_map_map_redraw s).composed = true ∧
      (osm_gps_map_map_redraw s).state.drag_mouse_dx = 0 ∧
      (osm_gps_map_map_redraw s).state.drag_mouse_dy = 0) := by
  unfold osm_gps_map_map_redraw
  dsimp only
  constructor
  · intro hskip
    split_ifs with hp hb hd
    · exact ⟨rfl, rfl, rfl, rfl, rfl, rfl, rfl⟩
    · exact ⟨rfl, rfl, rfl, rfl, rfl, rfl, rfl⟩
    · exact ⟨rfl, rfl, rfl, rfl, rfl, rfl, rfl⟩
    · exfalso
      rcases hskip with h | ⟨l, hl, hbusy⟩ | h
      · simp [h] at hp
      · exact hb (by simpa using List.any_eq_true.mpr ⟨l, hl, hbusy⟩)
      · exact hd h
  · intro hgo
    push_neg at hgo
    split_ifs with hp hb hd
    · simp only [Bool.not_eq_true'] at hp
      exact absurd hp hgo.1
    · exfalso
      rcases List.any_eq_true.mp (by simpa using hb) with ⟨l, hl, hbusy⟩
      exact hgo.2.1 l hl hbusy
    · exact absurd hd hgo.2.2
    · exact ⟨rfl, rfl, rfl⟩

/-- Claim C5 witness: on a state whose single layer reports busy, the
redraw entry point returns without recomposing and leaves markers, layers
and drag displacement unchanged. -/
theorem map_redraw_skips_or_zeroes_drag_witness :
    (osm_gps_map_map_redraw
        { baseState with layers := [⟨true⟩] }).composed = false ∧
    (osm_gps_map_map_redraw
        { baseState with layers := [⟨true⟩] }).cleared = none ∧
    (osm_gps_map_map_redraw
        { baseState with layers := [⟨true⟩] }).state.layers = [⟨true⟩] := by
  have h := (map_redraw_skips_or_zeroes_drag
      { baseState with layers := [⟨true⟩] }).1
    (Or.inr (Or.inl ⟨⟨true⟩, by decide, rfl⟩))
  exact ⟨h.1, h.2.1, h.2.2.2.2.1⟩

/-- Claim C7 (code bug): on a concrete state with trip recording enabled and
a one-point trip history, `osm_gps_map_gps_add` leaves the trip history
unchanged (it only updates the current fix — no fix is ever appended), and
`osm_gps_map_gps_clear` also leaves it unchanged (its body only requests a
deferred redraw — the history is never emptied).  Redraw leaving the history
unchanged (the part of the claim the code does satisfy) is included.  This
contradicts the claim and the source's own `record-trip-history` property
documentation ("should all gps points be recorded in a trip history"). -/
theorem gps_trip_history_never_recorded_or_cleared :
    ({ baseState with
        trip_history := [⟨1, 2⟩] } : MapState Int).trip_history_record_enabled
      = true ∧
    (osm_gps_map_gps_add intConverter
        { baseState with trip_history := [⟨1, 2⟩] } 1 2 0).1.trip_history
      = [⟨1, 2⟩] ∧
    (osm_gps_map_gps_clear
        { baseState with trip_history := [⟨1, 2⟩] }).trip_history
      = [⟨1, 2⟩] ∧
    (osm_gps_map_map_redraw
        { baseState with trip_history := [⟨1, 2⟩] }).state.trip_history
      = [⟨1, 2⟩] := by
  refine ⟨rfl, ?_, rfl, rfl⟩
  decide

/-- Claim C8: the geographic-to-screen conversion returns the point's
world-pixel position minus the viewport origin plus the in-flight drag
displacement, on both axes. -/
theorem convert_geographic_to_screen_accounts_for_drag {α : Type}
    (conv : Converter α) (s : MapState α) (pt : OsmGpsMapPoint α) :
    osm_gps_map_convert_geographic_to_screen conv s pt =
      (conv.lon2pixel s.map_zoom pt.rlon - s.map_x + s.drag_mouse_dx,
       conv.lat2pixel s.map_zoom pt.rlat - s.map_y + s.drag_mouse_dy) := by
  unfold osm_gps_map_convert_geographic_to_screen EXTRA_BORDER
  simp

/-- Claim C9 (code bug): on a 600×800 allocation the recomposition path
clears only the 600×600 square — the source reads
`gtk_widget_get_allocated_width` for *both* `w` and `h` (line 468), so the
cleared rectangle is width×width, leaving rows 600..799 of the surface
uncleared, contrary to the claim (and the evident intent) that the full
allocated width × height region is cleared. -/
theorem map_redraw_clears_width_by_width :
    (osm_gps_map_map_redraw
        { baseState with
            allocation_width := 600, allocation_height := 800 }).composed
      = true ∧
    (osm_gps_map_map_redraw
        { baseState with
            allocation_width := 600, allocation_height := 800 }).cleared
      = some (0, 0, 600, 600) ∧
    ({ baseState with
        allocation_width := 600,
        allocation_height := 800 } : MapState Int).allocation_height = 800 := by
  refine ⟨?_, ?_, rfl⟩ <;> decide

/-- The marker-collection order of §3: ascending z-order, ties broken by
insertion order (object creation order, modelled by `tag`). -/
def imageOrd {α : Type} (a b : OsmGpsMapImage α) : Prop :=
  a.zorder < b.zorder ∨ (a.zorder = b.zorder ∧ a.tag < b.tag)

instance {α : Type} (a b : OsmGpsMapImage α) : Decidable (imageOrd a b) := by
  unfold imageOrd
  infer_instance

/-- Fold a list of `(latitude, longitude, z-order)` marker insertions through
`osm_gps_map_image_add_with_alignment_z`. -/
def add_images {α : Type} (conv : Converter α) (s : MapState α) :
    List (α × α × Int) → MapState α
  | [] => s
  | p :: ps =>
      add_images conv
        (osm_gps_map_image_add_with_alignment_z conv s p.1 p.2.1 p.2.2).1 ps

theorem mem_g_slist_insert_sorted {β : Type} (cmp : β → β → Int) (x b : β)
    (l : List β) (h : b ∈ g_slist_insert_sorted cmp x l) : b = x ∨ b ∈ l := by
  induction l with
  | nil =>
      unfold g_slist_insert_sorted at h
      simpa using h
  | cons a rest ih =>
      unfold g_slist_insert_sorted at h
      split_ifs at h with hc
      · rcases List.mem_cons.mp h with h1 | h1
        · exact Or.inr (by simp [h1])
        · rcases ih h1 with h2 | h2
          · exact Or.inl h2
          · exact Or.inr (List.mem_cons_of_mem a h2)
      · rcases List.mem_cons.mp h with h1 | h1
        · exact Or.inl h1
        · exact Or.inr h1

theorem insert_sorted_pairwise {α : Type} (x : OsmGpsMapImage α)
    (l : List (OsmGpsMapImage α)) (hl : l.Pairwise imageOrd)
    (ht : ∀ im ∈ l, im.tag < x.tag) :
    (g_slist_insert_sorted osm_gps_map_image_z_compare x l).Pairwise
      imageOrd := by
  induction l with
  | nil => simp [g_slist_insert_sorted]
  | cons a rest ih =>
      rcases List.pairwise_cons.mp hl with ⟨ha, hrest⟩
      unfold g_slist_insert_sorted
      split_ifs with hc
      · have haz : a.zorder ≤ x.zorder := by
          unfold osm_gps_map_image_z_compare at hc
          omega
        have hax : imageOrd a x := by
          rcases lt_or_eq_of_le haz with h | h
          · exact Or.inl h
          · exact Or.inr ⟨h, ht a (List.mem_cons_self a rest)⟩
        refine List.pairwise_cons.mpr ⟨?_, ih hrest
          (fun im him => ht im (List.mem_cons_of_mem a him))⟩
        intro b hb
        rcases mem_g_slist_insert_sorted _ x b rest hb with rfl | hbr
        · exact hax
        · exact ha b hbr
      · have hxa : x.zorder < a.zorder := by
          unfold osm_gps_map_image_z_compare at hc
          omega
        refine List.pairwise_cons.mpr ⟨?_, hl⟩
        intro b hb
        rcases List.mem_cons.mp hb with rfl | hbr
        · exact Or.inl hxa
        · rcases ha b hbr with h | ⟨h, _⟩
          · exact Or.inl (hxa.trans h)
          · exact Or.inl (by omega)

theorem add_images_invariant {α : Type} (conv : Converter α)
    (pts : List (α × α × Int)) (s : MapState α)
    (h1 : s.images.Pairwise imageOrd)
    (h2 : ∀ im ∈ s.images, im.tag < s.image_seq) :
    (add_images conv s pts).images.Pairwise imageOrd := by
  induction pts generalizing s with
  | nil => exact h1
  | cons p ps ih =>
      unfold add_images osm_gps_map_image_add_with_alignment_z
      dsimp only
      apply ih
      · rw [redraw_idle_images]
        dsimp only
        exact insert_sorted_pairwise _ s.images h1 (fun im him => h2 im him)
      · intro im him
        rw [redraw_idle_images] at him
        rw [redraw_idle_image_seq]
        dsimp only at him ⊢
        rcases mem_g_slist_insert_sorted _ _ im s.images him with rfl | h
        · exact Nat.lt_succ_self _
        · exact Nat.lt_succ_of_lt (h2 im h)

/-- Claim C6: from any state whose marker list satisfies the z-order
invariant (with all identities older than the next allocation id), any
sequence of insertions through `osm_gps_map_image_add_with_alignment_z`
preserves it — the collection stays ordered by z-order ascending with ties
in insertion order; concretely, inserting z-orders [3,1,2] then [1] from the
empty collection yields render order [1,1,2,3] with the two z = 1 markers
(identities 1 and 3) in their original relative insertion order. -/
theorem images_sorted_by_zorder_stable {α : Type} (conv : Converter α)
    (s : MapState α) (pts : List (α × α × Int))
    (h1 : s.images.Pairwise imageOrd)
    (h2 : ∀ im ∈ s.images, im.tag < s.image_seq) :
    (add_images conv s pts).images.Pairwise imageOrd ∧
    ((add_images intConverter baseState
        [(0, 0, 3), (0, 0, 1), (0, 0, 2), (0, 0, 1)]).images.map
      fun im => (im.zorder, im.tag)) =
      [(1, 1), (1, 3), (2, 2), (3, 0)] := by
  refine ⟨add_images_invariant conv pts s h1 h2, ?_⟩
  decide

/-- Claim C6 witness: the invariant instantiated on the concrete insertion
sequence [3,1,2,1] from the base state (empty marker list). -/
theorem images_sorted_by_zorder_stable_witness :
    (add_images intConverter baseState
        [(0, 0, 3), (0, 0, 1), (0, 0, 2), (0, 0, 1)]).images.Pairwise
      imageOrd :=
  (images_sorted_by_zorder_stable intConverter baseState
      [(0, 0, 3), (0, 0, 1), (0, 0, 2), (0, 0, 1)]
      (by simp [baseState]) (by simp [baseState])).1

/-- Claim C3 counterexample: with auto-center enabled, an 800×600 viewport
and origin (0, 0), a GPS fix whose projected screen position is exactly
`(800/2 + 800/8, 300) = (500, 300)` — the outer edge of the inner band —
does NOT trigger recentering: `maybe_autocenter_map` uses strict
comparisons (`x > width/2 + width/8`), so the state is returned unchanged
and no "changed" signal is emitted, where the claim requires the viewport
to be recentered on the fix (which would move `map_x` from 0 to 100). -/
theorem autocenter_exact_band_edge_no_recenter :
    ((800 : Int) / 2 + 800 / 8 = 500) ∧
    ({ baseState with gps := ⟨300, 500⟩ } : MapState Int).map_auto_center_enabled
      = true ∧
    intConverter.lon2pixel 3 (500 : Int) -
      ({ baseState with gps := ⟨300, 500⟩ } : MapState Int).map_x = 500 ∧
    maybe_autocenter_map intConverter { baseState with gps := ⟨300, 500⟩ } =
      ({ baseState with gps := ⟨300, 500⟩ }, []) := by
  refine ⟨by decide, rfl, by decide, ?_⟩
  decide

/-- Claim C3 as amended: with auto-center enabled, `maybe_autocenter_map`
recenters the viewport on the fix (setting `map_x`/`map_y` so the fix's
world-pixel position is centered, and emitting "changed" through
`center_coord_update`) exactly when the fix's screen position falls
STRICTLY outside the centered band
`[size/2 - size/8, size/2 + size/8]` on either axis; a fix exactly on the
band edge, like one strictly inside, leaves the state unchanged with no
signal. -/
theorem autocenter_band_strict {α : Type} (conv : Converter α)
    (s : MapState α) (h : s.map_auto_center_enabled = true) :
    ((conv.lon2pixel s.map_zoom s.gps.rlon - s.map_x <
        s.allocation_width / 2 - s.allocation_width / 8 ∨
      conv.lon2pixel s.map_zoom s.gps.rlon - s.map_x >
        s.allocation_width / 2 + s.allocation_width / 8 ∨
      conv.lat2pixel s.map_zoom s.gps.rlat - s.map_y <
        s.allocation_height / 2 - s.allocation_height / 8 ∨
      conv.lat2pixel s.map_zoom s.gps.rlat - s.map_y >
        s.allocation_height / 2 + s.allocation_height / 8) →
      (maybe_autocenter_map conv s).1.map_x =
        conv.lon2pixel s.map_zoom s.gps.rlon - s.allocation_width / 2 ∧
      (maybe_autocenter_map conv s).1.map_y =
        conv.lat2pixel s.map_zoom s.gps.rlat - s.allocation_height / 2 ∧
      (maybe_autocenter_map conv s).2 = [MapEvent.changed]) ∧
    (¬(conv.lon2pixel s.map_zoom s.gps.rlon - s.map_x <
        s.allocation_width / 2 - s.allocation_width / 8 ∨
      conv.lon2pixel s.map_zoom s.gps.rlon - s.map_x >
        s.allocation_width / 2 + s.allocation_width / 8 ∨
      conv.lat2pixel s.map_zoom s.gps.rlat - s.map_y <
        s.allocation_height / 2 - s.allocation_height / 8 ∨
      conv.lat2pixel s.map_zoom s.gps.rlat - s.map_y >
        s.allocation_height / 2 + s.allocation_height / 8) →
      maybe_autocenter_map conv s = (s, [])) := by
  unfold maybe_autocenter_map center_coord_update
  dsimp only
  rw [if_pos h]
  split_ifs with hcond
  · simp only [Bool.or_eq_true, decide_eq_true_eq] at hcond
    refine ⟨fun _ => ⟨rfl, rfl, rfl⟩, fun hno => absurd ?_ hno⟩
    tauto
  · simp only [Bool.or_eq_true, decide_eq_true_eq, not_or] at hcond
    obtain ⟨⟨⟨n1, n2⟩, n3⟩, n4⟩ := hcond
    refine ⟨fun hout => ?_, fun _ => rfl⟩
    rcases hout with h1 | h1 | h1 | h1
    · exact absurd h1 n1
    · exact absurd h1 n2
    · exact absurd h1 n3
    · exact absurd h1 n4

/-- Claim C3 witness (amended form): on the concrete 800×600 centered
setup, a fix one pixel past the band edge, at screen `(501, 300)`, triggers
recentering (`map_x` becomes 101, "changed" emitted), while a fix at
`(499, 300)` does not. -/
theorem autocenter_band_strict_witness :
    (maybe_autocenter_map intConverter
        { baseState with gps := ⟨300, 501⟩ }).1.map_x = 101 ∧
    (maybe_autocenter_map intConverter
        { baseState with gps := ⟨300, 501⟩ }).2 = [MapEvent.changed] ∧
    maybe_autocenter_map intConverter { baseState with gps := ⟨300, 499⟩ } =
      ({ baseState with gps := ⟨300, 499⟩ }, []) := by
  have h1 := (autocenter_band_strict intConverter
      { baseState with gps := ⟨300, 501⟩ } rfl).1 (by decide)
  have h2 := (autocenter_band_strict intConverter
      { baseState with gps := ⟨300, 499⟩ } rfl).2 (by decide)
  exact ⟨h1.1.trans (by decide), h1.2.2, h2⟩

/-- Claim C10: the auto-center decision never reads
`map_auto_center_threshold` — for two states that differ only in the value
of that property, a GPS fix update (`osm_gps_map_gps_add`, which runs
`maybe_autocenter_map`) produces identical `map_x`, `map_y` and center
coordinates: the recentering band is fixed at width/8 and height/8. -/
theorem gps_add_ignores_autocenter_threshold {α : Type} (conv : Converter α)
    (s : MapState α) (t lat lon heading : α) :
    (osm_gps_map_gps_add conv { s with map_auto_center_threshold := t }
        lat lon heading).1.map_x =
      (osm_gps_map_gps_add conv s lat lon heading).1.map_x ∧
    (osm_gps_map_gps_add conv { s with map_auto_center_threshold := t }
        lat lon heading).1.map_y =
      (osm_gps_map_gps_add conv s lat lon heading).1.map_y ∧
    (osm_gps_map_gps_add conv { s with map_auto_center_threshold := t }
        lat lon heading).1.center_rlat =
      (osm_gps_map_gps_add conv s lat lon heading).1.center_rlat ∧
    (osm_gps_map_gps_add conv { s with map_auto_center_threshold := t }
        lat lon heading).1.center_rlon =
      (osm_gps_map_gps_add conv s lat lon heading).1.center_rlon := by
  unfold osm_gps_map_gps_add osm_gps_map_map_redraw_idle maybe_autocenter_map
    center_coord_update
  dsimp only
  split_ifs <;> simp_all

/-- Number of ARMED → DRAGGING transitions (steps where `is_dragging` flips
from false to true) along a run of motion events. -/
def drag_transitions {α : Type} (conv : Converter α) (s : MapState α) :
    List MotionEvent → Nat
  | [] => 0
  | e :: es =>
      (if s.is_dragging = false ∧
          ((osm_gps_map_motion_notify conv s e).1).is_dragging = true then 1
       else 0) +
      drag_transitions conv (osm_gps_map_motion_notify conv s e).1 es

theorem redraw_idle_is_dragging {α : Type} (s : MapState α) :
    (osm_gps_map_map_redraw_idle s).is_dragging = s.is_dragging := by
  unfold osm_gps_map_map_redraw_idle
  split <;> rfl

/-- A motion event never leaves the DRAGGING state: no branch of
`osm_gps_map_motion_notify` sets `is_dragging` back to false. -/
theorem motion_preserves_is_dragging {α : Type} (conv : Converter α)
    (s : MapState α) (e : MotionEvent) (h : s.is_dragging = true) :
    ((osm_gps_map_motion_notify conv s e).1).is_dragging = true := by
  unfold osm_gps_map_motion_notify g_object_set_auto_center
  dsimp only
  split_ifs <;>
    first
      | exact h
      | (dsimp only; rw [redraw_idle_is_dragging]; exact h)
      | rfl

theorem drag_transitions_zero_of_dragging {α : Type} (conv : Converter α)
    (s : MapState α) (h : s.is_dragging = true) (es : List MotionEvent) :
    drag_transitions conv s es = 0 := by
  induction es generalizing s with
  | nil => rfl
  | cons e es ih =>
      unfold drag_transitions
      rw [if_neg (by simp [h]),
          ih _ (motion_preserves_is_dragging conv s e h)]

/-- Claim C2: in an ARMED press state (button down, not dragging a point,
`drag_counter = 0`, not yet dragging, `drag_limit = 10`):
(a) a button-1 motion event whose squared displacement from the press origin
is below `drag_limit² = 100` (e.g. 9 px) leaves the entire state — drag
machine, viewport and drag offset — unchanged;
(b) a button-1 motion event whose squared displacement reaches
`drag_limit²` (e.g. 11 px) transitions to DRAGGING, disables auto-center
and records the displacement in `drag_mouse_dx`/`drag_mouse_dy`; and the
run consisting of that event followed by any further motion events contains
exactly one ARMED → DRAGGING transition. -/
theorem drag_threshold_behaviour {α : Type} (conv : Converter α)
    (s : MapState α) (hb : s.is_button_down = true)
    (hp : s.is_dragging_point = false) (hc : s.drag_counter = 0)
    (hd : s.is_dragging = false) (hl : s.drag_limit = 10) :
    (∀ e : MotionEvent, e.button1 = true →
      (e.x - s.drag_start_mouse_x) * (e.x - s.drag_start_mouse_x) +
        (e.y - s.drag_start_mouse_y) * (e.y - s.drag_start_mouse_y) < 100 →
      osm_gps_map_motion_notify conv s e = (s, [])) ∧
    (∀ e : MotionEvent, e.button1 = true →
      100 ≤ (e.x - s.drag_start_mouse_x) * (e.x - s.drag_start_mouse_x) +
        (e.y - s.drag_start_mouse_y) * (e.y - s.drag_start_mouse_y) →
      ((osm_gps_map_motion_notify conv s e).1.is_dragging = true ∧
       (osm_gps_map_motion_notify conv s e).1.map_auto_center_enabled
         = false ∧
       (osm_gps_map_motion_notify conv s e).1.drag_mouse_dx =
         e.x - s.drag_start_mouse_x ∧
       (osm_gps_map_motion_notify conv s e).1.drag_mouse_dy =
         e.y - s.drag_start_mouse_y) ∧
      ∀ es : List MotionEvent,
        drag_transitions conv s (e :: es) = 1) := by
  have harm : ∀ e : MotionEvent, e.button1 = true →
      (e.x - s.drag_start_mouse_x) * (e.x - s.drag_start_mouse_x) +
        (e.y - s.drag_start_mouse_y) * (e.y - s.drag_start_mouse_y) < 100 →
      osm_gps_map_motion_notify conv s e = (s, []) := by
    intro e hbtn hlt
    unfold osm_gps_map_motion_notify
    dsimp only
    rw [if_neg (show ¬(!s.is_button_down) = true by simp [hb]),
        if_neg (show ¬s.is_dragging_point = true by simp [hp]),
        if_neg (show ¬(!e.button1) = true by simp [hbtn]),
        if_neg (show ¬s.drag_counter < 0 by omega),
        if_pos ⟨hc, by rw [hl]; exact lt_of_lt_of_le hlt (by norm_num)⟩]
  have hfire : ∀ e : MotionEvent, e.button1 = true →
      100 ≤ (e.x - s.drag_start_mouse_x) * (e.x - s.drag_start_mouse_x) +
        (e.y - s.drag_start_mouse_y) * (e.y - s.drag_start_mouse_y) →
      (osm_gps_map_motion_notify conv s e).1.is_dragging = true ∧
      (osm_gps_map_motion_notify conv s e).1.map_auto_center_enabled
        = false ∧
      (osm_gps_map_motion_notify conv s e).1.drag_mouse_dx =
        e.x - s.drag_start_mouse_x ∧
      (osm_gps_map_motion_notify conv s e).1.drag_mouse_dy =
        e.y - s.drag_start_mouse_y := by
    intro e hbtn hge
    unfold osm_gps_map_motion_notify g_object_set_auto_center
    dsimp only
    rw [if_neg (show ¬(!s.is_button_down) = true by simp [hb]),
        if_neg (show ¬s.is_dragging_point = true by simp [hp]),
        if_neg (show ¬(!e.button1) = true by simp [hbtn]),
        if_neg (show ¬s.drag_counter < 0 by omega)]
    rw [if_neg (show ¬(s.drag_counter = 0 ∧ _) from ?_)]
    · dsimp only
      split_ifs <;> exact ⟨rfl, by simp_all, rfl, rfl⟩
    · rintro ⟨-, hlt⟩
      rw [hl] at hlt
      norm_num at hlt
      exact absurd hlt (not_lt.mpr hge)
  refine ⟨harm, fun e hbtn hge => ⟨hfire e hbtn hge, fun es => ?_⟩⟩
  unfold drag_transitions
  rw [if_pos ⟨hd, (hfire e hbtn hge).1⟩,
      drag_transitions_zero_of_dragging conv _ (hfire e hbtn hge).1 es]

/-- Claim C2 witness: on the concrete armed base state (button down,
origin press at (0,0), `drag_limit = 10`), the motion to (9, 0)
(displacement 9 px) is a complete no-op, and the run [(11,0), (12,0)]
(displacement 11 px then further motion) performs exactly one
ARMED → DRAGGING transition. -/
theorem drag_threshold_behaviour_witness :
    osm_gps_map_motion_notify intConverter
        { baseState with is_button_down := true } ⟨9, 0, true⟩ =
      ({ baseState with is_button_down := true }, []) ∧
    drag_transitions intConverter { baseState with is_button_down := true }
        [⟨11, 0, true⟩, ⟨12, 0, true⟩] = 1 := by
  have h := drag_threshold_behaviour intConverter
      { baseState with is_button_down := true } rfl rfl rfl rfl rfl
  exact ⟨h.1 ⟨9, 0, true⟩ rfl (by decide),
         (h.2 ⟨11, 0, true⟩ rfl (by decide)).2 [⟨12, 0, true⟩]⟩
